import Mathlib

/-!
Verification of the NanoPi NEO OLED system monitor.

The repository has two copies of the monitor: the standalone program
`NanoPiNEOOLEDSystemMonitor.py` (namespace `Monitor` below) and the
near-duplicate embedded in the install script `installer.py` (heredoc
`nanopi_oled_monitor.py`, namespace `Installer` below).  The shallow
embedding translates the pure parts of both copies: display-mode list and
the NEXT_MODE button transition, the config defaults and the
defaults-updated-by-file merge, the timezone cycling, NTP sync over a
server list, the uptime decomposition, the temperature banding and
Fahrenheit conversion, and the draw functions as lists of positioned
text items.
-/

/-- A value stored in the JSON configuration file. -/
inductive ConfigValue
  | str : String → ConfigValue
  | int : ℤ → ConfigValue
  | rat : ℚ → ConfigValue
  | bool : Bool → ConfigValue
  | strList : List String → ConfigValue
  deriving DecidableEq, Repr

/-- A configuration mapping: an association list of keys and values
(the parsed JSON dict; keys are unique in a parsed dict, lookups take
the first occurrence). -/
abbrev ConfigMap := List (String × ConfigValue)

/-- Look up a key in a configuration mapping (first match). -/
def lookupKey (m : ConfigMap) (k : String) : Option ConfigValue :=
  (m.find? (fun p => p.1 == k)).map Prod.snd

/-- Python `dict.update`: entries of `d` whose key also appears in `s`
take the value from `s`; entries of `s` whose key is absent from `d`
are appended. -/
def dictUpdate (d s : ConfigMap) : ConfigMap :=
  d.map (fun p => (p.1, (lookupKey s p.1).getD p.2)) ++
    s.filter (fun p => (lookupKey d p.1).isNone)

/-- The content of one drawn text line: either literal text, or a
number rendered with Python's one-decimal format
`"{prefixStr}{v:.1f}{suffixStr}"` (the exact decimal rendering is kept
symbolic, the value is the rational payload). -/
inductive Txt
  | lit : String → Txt
  | fmt1 : String → ℚ → String → Txt
  deriving DecidableEq, Repr

/-- One `draw.text((x, y), s)` call: position and content. -/
abbrev Line := ℕ × ℕ × Txt

/-- Temperature status banding, common to both copies:
`"COOL" if temp < 50 else "WARM" if temp < 70 else "HOT!"`. -/
def temp_status (t : ℚ) : String :=
  if t < 50 then "COOL" else if t < 70 then "WARM" else "HOT!"

/-- Fahrenheit value computed in `draw_temperature`:
`temp_f = (temp * 9/5) + 32`. -/
def to_fahrenheit (c : ℚ) : ℚ := c * 9 / 5 + 32

/-- State mutated by `sync_ntp`: the `last_ntp_sync` timestamp. -/
structure SyncState where
  last_ntp_sync : ℚ
  deriving DecidableEq, Repr

/-- `sync_ntp`, common to both copies: try each configured server in
order (`subprocess.check_call` modelled by the oracle `attempt`); on
the first success set `last_ntp_sync = time.time()` (`now`) and return
`True`; when the loop ends with no success return `False`.  The third
component records the servers actually tried, in order. -/
def sync_ntp (attempt : String → Bool) (now : ℚ) :
    List String → SyncState → Bool × SyncState × List String
  | [], st => (false, st, [])
  | s :: rest, st =>
    if attempt s then (true, ⟨now⟩, [s])
    else
      let r := sync_ntp attempt now rest st
      (r.1, r.2.1, s :: r.2.2)

/-- `get_uptime` (installer copy): seconds since boot is a float read
from `/proc/uptime`; Python `x % y` on non-negative floats is
`x - y * floor(x / y)` and `x // y` is `floor(x / y)`. -/
def pyMod (a b : ℚ) : ℚ := a - b * ⌊a / b⌋

/-- `get_uptime`: `days = int(s // 86400)`,
`hours = int((s % 86400) // 3600)`, `minutes = int((s % 3600) // 60)`. -/
def get_uptime (s : ℚ) : ℤ × ℤ × ℤ :=
  (⌊s / 86400⌋, ⌊pyMod s 86400 / 3600⌋, ⌊pyMod s 3600 / 60⌋)

/-- System-info sample returned by `get_system_info` (both copies). -/
structure SystemInfo where
  cpu : ℚ
  memory_percent : ℚ
  memory_used : ℕ
  memory_total : ℕ
  disk_percent : ℚ
  disk_used : ℕ
  disk_total : ℕ
  deriving Repr

/-- Network sample returned by `get_network_info` (both copies). -/
structure NetworkInfo where
  ip_addresses : List String
  bytes_sent : ℕ
  bytes_recv : ℕ
  deriving Repr

/-- Uptime sample returned by `get_uptime` (installer copy). -/
structure UptimeInfo where
  days : ℕ
  hours : ℕ
  minutes : ℕ
  deriving Repr

namespace Monitor

/-- `display_modes` of the standalone monitor (four modes). -/
def display_modes : List String :=
  ["datetime", "system_info", "network_info", "temperature"]

/-- The F1 (NEXT_MODE) branch of `button_callback`:
`current_mode = (current_mode + 1) % len(display_modes)`. -/
def button_next (m : ℕ) : ℕ := (m + 1) % display_modes.length

/-- Default configuration of the standalone monitor's `load_config`. -/
def default_config : ConfigMap :=
  [("timezone", .str "UTC"),
   ("display_brightness", .int 255),
   ("auto_brightness", .bool true),
   ("ntp_servers", .strList ["pool.ntp.org", "time.google.com"]),
   ("display_timeout", .int 0),
   ("refresh_rate", .rat 1)]

/-- `load_config`: a missing file, or one whose read/parse raises,
yields the defaults (`stored = none`); otherwise
`default_config.update(config)`. -/
def load_config (stored : Option ConfigMap) : ConfigMap :=
  match stored with
  | none => default_config
  | some s => dictUpdate default_config s

/-- `timezones` hard-coded in the standalone `cycle_timezone`. -/
def timezones : List String :=
  ["UTC", "EST", "PST", "GMT", "CET", "JST",
   "Asia/Shanghai", "Europe/London", "America/New_York",
   "America/Los_Angeles", "Asia/Tokyo"]

/-- `cycle_timezone`: `current_index = timezones.index(tz) if tz in
timezones else 0`; `next_index = (current_index + 1) % len(timezones)`;
the new configured timezone is `timezones[next_index]`. -/
def cycle_timezone (tz : String) : String :=
  let i := if tz ∈ timezones then timezones.indexOf tz else 0
  timezones.getD ((i + 1) % timezones.length) ""

/-- `draw_system_info` of the standalone monitor.  The input is the
result of `self.get_system_info()`: `Except.error` when the body
raises, `.ok none` when the getter returned `None` (unavailable). -/
def draw_system_info (info : Except String (Option SystemInfo)) : List Line :=
  match info with
  | .error e => [(0, 0, .lit ("Sys Error: " ++ e.take 15))]
  | .ok none => [(0, 0, .lit "System info unavailable")]
  | .ok (some i) =>
    [(0, 0, .fmt1 "CPU: " i.cpu "%"),
     (0, 12, .fmt1 "RAM: " i.memory_percent "%"),
     (0, 24, .lit ("     " ++ toString i.memory_used ++ "MB/" ++
        toString i.memory_total ++ "MB")),
     (0, 36, .fmt1 "Disk: " i.disk_percent "%"),
     (0, 48, .lit ("      " ++ toString i.disk_used ++ "GB/" ++
        toString i.disk_total ++ "GB"))]

end Monitor

namespace Installer

/-- `display_modes` of the installer's embedded monitor (five modes). -/
def display_modes : List String :=
  ["datetime", "system_info", "network_info", "temperature", "uptime"]

/-- The F1 (NEXT_MODE) branch of `button_callback`:
`current_mode = (current_mode + 1) % len(display_modes)`. -/
def button_next (m : ℕ) : ℕ := (m + 1) % display_modes.length

/-- Default configuration of the embedded monitor's `load_config`. -/
def default_config : ConfigMap :=
  [("timezone", .str "UTC"),
   ("display_brightness", .int 255),
   ("ntp_servers", .strList ["pool.ntp.org", "time.google.com"]),
   ("refresh_rate", .rat 1),
   ("temperature_unit", .str "C"),
   ("show_seconds", .bool true)]

/-- `load_config`: missing or unreadable/malformed file yields the
defaults; otherwise `default_config.update(config)`. -/
def load_config (stored : Option ConfigMap) : ConfigMap :=
  match stored with
  | none => default_config
  | some s => dictUpdate default_config s

/-- `timezones` hard-coded in the embedded `cycle_timezone`. -/
def timezones : List String :=
  ["UTC", "US/Eastern", "US/Pacific", "Europe/London", "Europe/Berlin",
   "Asia/Shanghai", "Asia/Tokyo", "Australia/Sydney", "America/New_York",
   "America/Los_Angeles", "Asia/Kolkata"]

/-- `cycle_timezone` of the embedded monitor (same algorithm as the
standalone one, different list). -/
def cycle_timezone (tz : String) : String :=
  let i := if tz ∈ timezones then timezones.indexOf tz else 0
  timezones.getD ((i + 1) % timezones.length) ""

/-- `draw_system_info` of the embedded monitor: `Except.error` when the
body raises (`except: draw "System Error"`), `.ok none` when
`get_system_info` returned `None`. -/
def draw_system_info (info : Except String (Option SystemInfo)) : List Line :=
  match info with
  | .error _ => [(0, 0, .lit "System Error")]
  | .ok none => [(0, 0, .lit "System info unavailable")]
  | .ok (some i) =>
    [(0, 0, .fmt1 "CPU: " i.cpu "%"),
     (0, 12, .fmt1 "RAM: " i.memory_percent "%"),
     (0, 24, .lit ("     " ++ toString i.memory_used ++ "/" ++
        toString i.memory_total ++ "MB")),
     (0, 36, .fmt1 "Disk: " i.disk_percent "%"),
     (0, 48, .lit ("      " ++ toString i.disk_used ++ "/" ++
        toString i.disk_total ++ "GB"))]

/-- `draw_network_info` of the embedded monitor: title, up to two IP
lines (or "No IP address"), then TX/RX lines at the running `y_pos`. -/
def draw_network_info (info : Except String (Option NetworkInfo)) : List Line :=
  match info with
  | .error _ => [(0, 0, .lit "Network Error")]
  | .ok none => [(0, 0, .lit "Network unavailable")]
  | .ok (some i) =>
    let shown := i.ip_addresses.take 2
    let ipLines : List Line :=
      if i.ip_addresses.isEmpty then [(0, 12, Txt.lit "No IP address")]
      else shown.enum.map (fun p => (0, 12 + 12 * p.1, Txt.lit ("IP: " ++ p.2)))
    let y := if i.ip_addresses.isEmpty then 24 else 12 + 12 * shown.length
    (0, 0, Txt.lit "Network Info") :: ipLines ++
      [(0, y, Txt.lit ("TX: " ++ toString i.bytes_sent ++ "MB")),
       (0, y + 12, Txt.lit ("RX: " ++ toString i.bytes_recv ++ "MB"))]

/-- `draw_temperature` of the embedded monitor.  With `unit = "F"` the
Fahrenheit value `temp * 9/5 + 32` is drawn first and the Celsius value
below it; otherwise only Celsius; then the status band. -/
def draw_temperature (temp : Except String (Option ℚ)) (unit : String) : List Line :=
  match temp with
  | .error _ => [(0, 0, .lit "Temp Error")]
  | .ok none => [(0, 0, .lit "Temperature"), (0, 16, .lit "Sensor unavailable")]
  | .ok (some t) =>
    (0, 0, Txt.lit "Temperature") ::
      (if unit = "F" then
        [(0, 16, Txt.fmt1 "CPU: " (to_fahrenheit t) "°F"),
         (0, 28, Txt.fmt1 "     " t "°C")]
      else [(0, 16, Txt.fmt1 "CPU: " t "°C")]) ++
      [(0, 40, Txt.lit ("Status: " ++ temp_status t))]

/-- `draw_uptime` of the embedded monitor. -/
def draw_uptime (u : Except String (Option UptimeInfo)) : List Line :=
  match u with
  | .error _ => [(0, 0, .lit "Uptime Error")]
  | .ok none => [(0, 0, .lit "System Uptime"), (0, 16, .lit "Uptime unavailable")]
  | .ok (some x) =>
    [(0, 0, .lit "System Uptime"),
     (0, 16, .lit ("Days: " ++ toString x.days)),
     (0, 28, .lit ("Hours: " ++ toString x.hours)),
     (0, 40, .lit ("Minutes: " ++ toString x.minutes))]

/-- `draw_datetime` of the embedded monitor.  The strftime-formatted
date/time/timezone strings are inputs (the datetime library is an
external boundary); `now` is `time.time()` and the last line shows
`"NTP: Synced"` when `now - last_ntp_sync < 7200`, else `"NTP: Old"`. -/
def draw_datetime (fmt : Except String Unit) (date_str time_str tz_str : String)
    (now last_ntp_sync : ℚ) : List Line :=
  match fmt with
  | .error _ => [(0, 0, .lit "Time Error")]
  | .ok _ =>
    [(0, 0, .lit date_str),
     (0, 16, .lit time_str),
     (0, 32, .lit ("TZ: " ++ tz_str)),
     (0, 48, .lit ("NTP: " ++ (if now - last_ntp_sync < 7200 then "Synced" else "Old")))]

end Installer

/-- C1 helper: mode index after `n` NEXT_MODE events starting at 0. -/
def modeAfter (next : ℕ → ℕ) (n : ℕ) : ℕ := next^[n] 0

theorem monitor_button_next_iterate (n : ℕ) :
    modeAfter Monitor.button_next n = n % Monitor.display_modes.length := by
  induction n with
  | zero => rfl
  | succ k ih =>
    rw [modeAfter, Function.iterate_succ_apply', ← modeAfter, ih,
      Monitor.button_next, Nat.mod_add_mod]

theorem installer_button_next_iterate (n : ℕ) :
    modeAfter Installer.button_next n = n % Installer.display_modes.length := by
  induction n with
  | zero => rfl
  | succ k ih =>
    rw [modeAfter, Function.iterate_succ_apply', ← modeAfter, ih,
      Installer.button_next, Nat.mod_add_mod]

/-- C1: starting from mode index 0, after `n` NEXT_MODE button events
the current mode index equals `n % modeCount` where `modeCount` is the
length of the fixed display-mode list, in both copies of the monitor;
and a single NEXT_MODE event maps index `m` to `(m + 1) % modeCount`. -/
theorem next_mode_iterates_mod (n m : ℕ) :
    modeAfter Monitor.button_next n = n % Monitor.display_modes.length ∧
    modeAfter Installer.button_next n = n % Installer.display_modes.length ∧
    Monitor.button_next m = (m + 1) % Monitor.display_modes.length ∧
    Installer.button_next m = (m + 1) % Installer.display_modes.length :=
  ⟨monitor_button_next_iterate n, installer_button_next_iterate n, rfl, rfl⟩

/-- C2 counterexample: the display-mode list of the standalone monitor
(`NanoPiNEOOLEDSystemMonitor.py`) is not the five-element list
[datetime, system_info, network_info, temperature, uptime]: it has only
four modes and lacks `uptime`. -/
theorem display_modes_not_five :
    Monitor.display_modes ≠
      ["datetime", "system_info", "network_info", "temperature", "uptime"] ∧
    Monitor.display_modes.length = 4 ∧
    "uptime" ∉ Monitor.display_modes := by
  refine ⟨?_, rfl, ?_⟩ <;> decide

/-- C2 (amended): the installer's embedded monitor has exactly the
ordered five-mode list [datetime, system_info, network_info,
temperature, uptime]; the standalone monitor has the ordered four-mode
list without uptime; in both, the mode index reachable after any number
of NEXT_MODE events stays below the list length, so it always addresses
exactly one element of the fixed list. -/
theorem display_modes_fixed_and_index_in_range (n : ℕ) :
    Installer.display_modes =
      ["datetime", "system_info", "network_info", "temperature", "uptime"] ∧
    Monitor.display_modes =
      ["datetime", "system_info", "network_info", "temperature"] ∧
    modeAfter Monitor.button_next n < Monitor.display_modes.length ∧
    modeAfter Installer.button_next n < Installer.display_modes.length := by
  refine ⟨rfl, rfl, ?_, ?_⟩
  · rw [monitor_button_next_iterate]
    exact Nat.mod_lt _ (by decide)
  · rw [installer_button_next_iterate]
    exact Nat.mod_lt _ (by decide)

theorem sync_ntp_result_any (attempt : String → Bool) (now : ℚ)
    (servers : List String) (st : SyncState) :
    (sync_ntp attempt now servers st).1 = servers.any attempt := by
  induction servers with
  | nil => rfl
  | cons s rest ih =>
    by_cases h : attempt s = true
    · simp [sync_ntp, h]
    · simp only [Bool.not_eq_true] at h
      simp [sync_ntp, h, ih]

theorem sync_ntp_state (attempt : String → Bool) (now : ℚ)
    (servers : List String) (st : SyncState) :
    (sync_ntp attempt now servers st).2.1 =
      (if servers.any attempt then (⟨now⟩ : SyncState) else st) := by
  induction servers with
  | nil => rfl
  | cons s rest ih =>
    by_cases h : attempt s = true
    · simp [sync_ntp, h]
    · simp only [Bool.not_eq_true] at h
      simp [sync_ntp, h, ih]

theorem sync_ntp_tried (attempt : String → Bool) (now : ℚ)
    (servers : List String) (st : SyncState) :
    (sync_ntp attempt now servers st).2.2 =
      servers.takeWhile (fun s => !attempt s) ++
        (servers.dropWhile (fun s => !attempt s)).take 1 := by
  induction servers with
  | nil => rfl
  | cons s rest ih =>
    by_cases h : attempt s = true
    · simp [sync_ntp, h, List.takeWhile_cons, List.dropWhile_cons]
    · simp only [Bool.not_eq_true] at h
      simp [sync_ntp, h, ih, List.takeWhile_cons, List.dropWhile_cons]

/-- C3: `sync_ntp` tries the configured servers in order and stops at
the first success (the servers actually tried are the failing prefix
plus, when one exists, the first succeeding server); it returns `true`
iff at least one attempt succeeded; on success it sets `last_ntp_sync`
to the current time, and when every server fails it returns `false` and
leaves `last_ntp_sync` unchanged. -/
theorem sync_ntp_spec (attempt : String → Bool) (now : ℚ)
    (servers : List String) (st : SyncState) :
    (sync_ntp attempt now servers st).1 = servers.any attempt ∧
    (sync_ntp attempt now servers st).2.1 =
      (if servers.any attempt then (⟨now⟩ : SyncState) else st) ∧
    (sync_ntp attempt now servers st).2.2 =
      servers.takeWhile (fun s => !attempt s) ++
        (servers.dropWhile (fun s => !attempt s)).take 1 :=
  ⟨sync_ntp_result_any attempt now servers st,
   sync_ntp_state attempt now servers st,
   sync_ntp_tried attempt now servers st⟩

theorem find?_filter_keep (s : ConfigMap) (q : String × ConfigValue → Bool)
    (k : String) (h : ∀ p : String × ConfigValue, p.1 = k → q p = true) :
    (s.filter q).find? (fun p => p.1 == k) = s.find? (fun p => p.1 == k) := by
  induction s with
  | nil => rfl
  | cons p rest ih =>
    by_cases hq : q p = true
    · rw [List.filter_cons_of_pos hq]
      by_cases hk : p.1 = k
      · rw [List.find?_cons_of_pos _ (by simpa using hk),
          List.find?_cons_of_pos _ (by simpa using hk)]
      · rw [List.find?_cons_of_neg _ (by simpa using hk),
          List.find?_cons_of_neg _ (by simpa using hk), ih]
    · have hk : ¬ p.1 = k := fun hk => hq (h p hk)
      rw [List.filter_cons_of_neg hq, ih,
        List.find?_cons_of_neg _ (by simpa using hk)]

theorem lookupKey_append (a b : ConfigMap) (k : String) :
    lookupKey (a ++ b) k = (lookupKey a k).or (lookupKey b k) := by
  unfold lookupKey
  rw [List.find?_append]
  cases a.find? (fun p => p.1 == k) <;> simp [Option.or]

theorem lookupKey_map_keyed (g : String × ConfigValue → ConfigValue)
    (d : ConfigMap) (k : String) :
    lookupKey (d.map (fun p => (p.1, g p))) k =
      (d.find? (fun p => p.1 == k)).map g := by
  unfold lookupKey
  rw [List.find?_map]
  have h1 : ((fun p : String × ConfigValue => p.1 == k) ∘
      fun p : String × ConfigValue => (p.1, g p)) =
      fun p : String × ConfigValue => p.1 == k := rfl
  have h2 : (Prod.snd ∘ fun p : String × ConfigValue => (p.1, g p)) = g := rfl
  rw [h1, Option.map_map, h2]

theorem lookupKey_dictUpdate (d s : ConfigMap) (k : String) :
    lookupKey (dictUpdate d s) k = (lookupKey s k).or (lookupKey d k) := by
  rw [show dictUpdate d s =
      d.map (fun p => (p.1, (lookupKey s p.1).getD p.2)) ++
        s.filter (fun p => (lookupKey d p.1).isNone) from rfl,
    lookupKey_append, lookupKey_map_keyed]
  cases hd : d.find? (fun p => p.1 == k) with
  | some p0 =>
    have hk : p0.1 = k := by
      have := List.find?_some hd
      simpa using this
    have hdk : lookupKey d k = some p0.2 := by simp [lookupKey, hd]
    rw [hdk]
    simp only [Option.map_some']
    rw [hk]
    cases hs : lookupKey s k <;> simp [Option.or]
  | none =>
    have hnone : lookupKey d k = none := by simp [lookupKey, hd]
    have hfil : lookupKey (s.filter (fun p => (lookupKey d p.1).isNone)) k =
        lookupKey s k := by
      have h := find?_filter_keep s (fun p => (lookupKey d p.1).isNone) k
        (fun p hp => by simp [hp, hnone])
      exact congrArg (Option.map Prod.snd) h
    rw [hnone, hfil]
    cases hs : lookupKey s k <;> simp [Option.or]

/-- C4 counterexample: with a missing file, `load_config` of the
standalone monitor (`NanoPiNEOOLEDSystemMonitor.py`) does not yield a
configuration with the documented keys `timezone, display_brightness,
ntp_servers, refresh_rate, temperature_unit, show_seconds`: its default
set of keys differs, and `temperature_unit` and `show_seconds` are
absent. -/
theorem monitor_defaults_not_documented_keys :
    (Monitor.load_config none).map Prod.fst ≠
      ["timezone", "display_brightness", "ntp_servers", "refresh_rate",
       "temperature_unit", "show_seconds"] ∧
    lookupKey (Monitor.load_config none) "temperature_unit" = none ∧
    lookupKey (Monitor.load_config none) "show_seconds" = none := by
  refine ⟨?_, rfl, rfl⟩
  decide

/-- C4 (amended): for the installer's embedded monitor the claim holds
as stated: a missing or unreadable/malformed file yields exactly the
defaults, whose keys are `timezone, display_brightness, ntp_servers,
refresh_rate, temperature_unit, show_seconds`.  The standalone
monitor's defaults instead have keys `timezone, display_brightness,
auto_brightness, ntp_servers, display_timeout, refresh_rate`.  In both
copies, when a file is present the result is the defaults updated by
the stored mapping: a stored value wins over the default and a missing
key falls back to its default. -/
theorem load_config_defaults_and_merge (stored : ConfigMap) (k : String) :
    Installer.load_config none = Installer.default_config ∧
    (Installer.load_config none).map Prod.fst =
      ["timezone", "display_brightness", "ntp_servers", "refresh_rate",
       "temperature_unit", "show_seconds"] ∧
    Monitor.load_config none = Monitor.default_config ∧
    (Monitor.load_config none).map Prod.fst =
      ["timezone", "display_brightness", "auto_brightness", "ntp_servers",
       "display_timeout", "refresh_rate"] ∧
    lookupKey (Installer.load_config (some stored)) k =
      (lookupKey stored k).or (lookupKey Installer.default_config k) ∧
    lookupKey (Monitor.load_config (some stored)) k =
      (lookupKey stored k).or (lookupKey Monitor.default_config k) :=
  ⟨rfl, by decide, rfl, by decide,
   lookupKey_dictUpdate Installer.default_config stored k,
   lookupKey_dictUpdate Monitor.default_config stored k⟩

/-- C5: the rendered temperature status band is `"COOL"` iff
`t < 50`, `"WARM"` iff `50 ≤ t < 70` and `"HOT!"` iff `t ≥ 70`;
in particular 49.9 °C maps to COOL, 50.0 °C and 69.9 °C to WARM,
and 70.0 °C to HOT!. -/
theorem temp_status_banding (t : ℚ) :
    (temp_status t = "COOL" ↔ t < 50) ∧
    (temp_status t = "WARM" ↔ 50 ≤ t ∧ t < 70) ∧
    (temp_status t = "HOT!" ↔ 70 ≤ t) ∧
    temp_status (499/10) = "COOL" ∧
    temp_status 50 = "WARM" ∧
    temp_status (699/10) = "WARM" ∧
    temp_status 70 = "HOT!" := by
  refine ⟨?_, ?_, ?_, by norm_num [temp_status], by norm_num [temp_status],
    by norm_num [temp_status], by norm_num [temp_status]⟩
  · unfold temp_status
    split_ifs with h1 h2
    · exact iff_of_true rfl h1
    · exact iff_of_false (by decide) h1
    · exact iff_of_false (by decide) h1
  · unfold temp_status
    split_ifs with h1 h2
    · exact iff_of_false (by decide) (by rintro ⟨h50, _⟩; linarith)
    · exact iff_of_true rfl ⟨by linarith, h2⟩
    · exact iff_of_false (by decide) (by rintro ⟨_, h70⟩; exact h2 h70)
  · unfold temp_status
    split_ifs with h1 h2
    · exact iff_of_false (by decide) (by intro h; linarith)
    · exact iff_of_false (by decide) (by intro h; linarith)
    · exact iff_of_true rfl (le_of_not_lt h2)

theorem floor_natCast_div (s k : ℕ) :
    ⌊(s : ℚ) / (k : ℚ)⌋ = ((s / k : ℕ) : ℤ) := by
  have h0 : (0 : ℚ) ≤ (s : ℚ) / (k : ℚ) := by positivity
  rw [← Int.natCast_floor_eq_floor h0, Nat.floor_div_nat, Nat.floor_natCast]

theorem pyMod_natCast (s k : ℕ) :
    pyMod (s : ℚ) (k : ℚ) = ((s % k : ℕ) : ℚ) := by
  unfold pyMod
  rw [floor_natCast_div]
  have h := Nat.div_add_mod s k
  have hq : (k : ℚ) * ((s / k : ℕ) : ℚ) + ((s % k : ℕ) : ℚ) = (s : ℚ) := by
    exact_mod_cast congrArg (Nat.cast : ℕ → ℚ) h
  rw [Int.cast_natCast]
  linarith

theorem get_uptime_natCast (s : ℕ) :
    get_uptime (s : ℚ) =
      (((s / 86400 : ℕ) : ℤ), (((s % 86400) / 3600 : ℕ) : ℤ),
        (((s % 3600) / 60 : ℕ) : ℤ)) := by
  unfold get_uptime
  have e1 : ((86400 : ℚ)) = ((86400 : ℕ) : ℚ) := by norm_num
  have e2 : ((3600 : ℚ)) = ((3600 : ℕ) : ℚ) := by norm_num
  have e3 : ((60 : ℚ)) = ((60 : ℕ) : ℚ) := by norm_num
  rw [e1, e2, e3, pyMod_natCast, pyMod_natCast, floor_natCast_div,
    floor_natCast_div, floor_natCast_div]

/-- C6: for every non-negative (whole) seconds-since-boot value `s`,
`get_uptime` returns days = s / 86400, hours = (s % 86400) / 3600 and
minutes = (s % 3600) / 60 (integer division, each remainder feeding the
next); in particular 90061 seconds give 1 day, 1 hour, 1 minute. -/
theorem get_uptime_decomposition (s : ℕ) :
    get_uptime (s : ℚ) =
      (((s / 86400 : ℕ) : ℤ), (((s % 86400) / 3600 : ℕ) : ℤ),
        (((s % 3600) / 60 : ℕ) : ℤ)) ∧
    get_uptime 90061 = (1, 1, 1) := by
  refine ⟨get_uptime_natCast s, ?_⟩
  have h := get_uptime_natCast 90061
  rw [show ((90061 : ℕ) : ℚ) = (90061 : ℚ) from by norm_num] at h
  rw [h]
  norm_num

/-- C7 counterexample: the claim "for every starting timezone, applying
CYCLE_TZ `len(timezoneList)` times returns the configured timezone to
its original value" fails for a starting value outside the list: it is
treated as index 0, so eleven applications land on `"UTC"` (index 0),
not back on the original value.  This holds in both copies. -/
theorem cycle_timezone_unknown_not_restored :
    Installer.cycle_timezone^[Installer.timezones.length] "Mars/Phobos" = "UTC" ∧
    Monitor.cycle_timezone^[Monitor.timezones.length] "Mars/Phobos" = "UTC" ∧
    "Mars/Phobos" ≠ "UTC" := by
  refine ⟨?_, ?_, by decide⟩ <;> decide

/-- C7 (amended): for every starting timezone that is a member of the
fixed timezone list, applying CYCLE_TZ `len(timezoneList)` times
returns the configured timezone to its original value; each single
application advances to the next entry with wrap-around (a current
value not in the list is treated as index 0, so such a value is not
restored).  Proved for both copies' lists. -/
theorem cycle_timezone_cyclic_on_list :
    (∀ tz ∈ Monitor.timezones,
      Monitor.cycle_timezone^[Monitor.timezones.length] tz = tz) ∧
    (∀ tz ∈ Installer.timezones,
      Installer.cycle_timezone^[Installer.timezones.length] tz = tz) := by
  constructor <;> decide

theorem cycle_timezone_cyclic_on_list_witness :
    Monitor.cycle_timezone^[Monitor.timezones.length] "UTC" = "UTC" ∧
    Installer.cycle_timezone^[Installer.timezones.length] "UTC" = "UTC" :=
  ⟨cycle_timezone_cyclic_on_list.1 "UTC" (by decide),
   cycle_timezone_cyclic_on_list.2 "UTC" (by decide)⟩

/-- C8: for every display mode, a render call whose data source returns
no data draws the designated literal placeholder text ("System info
unavailable", "Network unavailable", "Sensor unavailable", "Uptime
unavailable"), and a fault raised inside the drawing function is caught
there and converted to a literal error line: every branch of every draw
function returns placeholder text, nothing escapes. -/
theorem unavailable_renders_placeholders (e unit d t z : String) (now last : ℚ) :
    Monitor.draw_system_info (.ok none) =
      [(0, 0, .lit "System info unavailable")] ∧
    Installer.draw_system_info (.ok none) =
      [(0, 0, .lit "System info unavailable")] ∧
    Installer.draw_network_info (.ok none) =
      [(0, 0, .lit "Network unavailable")] ∧
    Installer.draw_temperature (.ok none) unit =
      [(0, 0, .lit "Temperature"), (0, 16, .lit "Sensor unavailable")] ∧
    Installer.draw_uptime (.ok none) =
      [(0, 0, .lit "System Uptime"), (0, 16, .lit "Uptime unavailable")] ∧
    Monitor.draw_system_info (.error e) =
      [(0, 0, .lit ("Sys Error: " ++ e.take 15))] ∧
    Installer.draw_system_info (.error e) = [(0, 0, .lit "System Error")] ∧
    Installer.draw_network_info (.error e) = [(0, 0, .lit "Network Error")] ∧
    Installer.draw_temperature (.error e) unit = [(0, 0, .lit "Temp Error")] ∧
    Installer.draw_uptime (.error e) = [(0, 0, .lit "Uptime Error")] ∧
    Installer.draw_datetime (.error e) d t z now last =
      [(0, 0, .lit "Time Error")] :=
  ⟨rfl, rfl, rfl, rfl, rfl, rfl, rfl, rfl, rfl, rfl, rfl⟩

/-- C9: with `temperature_unit = "F"`, `draw_temperature` renders the
Fahrenheit value `t * 9/5 + 32` computed from the Celsius reading and
shows the Celsius value below it; 0 °C converts to 32 °F and 100 °C to
212 °F. -/
theorem fahrenheit_conversion_both_shown (t : ℚ) :
    Installer.draw_temperature (.ok (some t)) "F" =
      [(0, 0, .lit "Temperature"),
       (0, 16, .fmt1 "CPU: " (t * 9 / 5 + 32) "°F"),
       (0, 28, .fmt1 "     " t "°C"),
       (0, 40, .lit ("Status: " ++ temp_status t))] ∧
    Installer.draw_temperature (.ok (some 0)) "F" =
      [(0, 0, .lit "Temperature"),
       (0, 16, .fmt1 "CPU: " 32 "°F"),
       (0, 28, .fmt1 "     " 0 "°C"),
       (0, 40, .lit ("Status: " ++ temp_status 0))] ∧
    Installer.draw_temperature (.ok (some 100)) "F" =
      [(0, 0, .lit "Temperature"),
       (0, 16, .fmt1 "CPU: " 212 "°F"),
       (0, 28, .fmt1 "     " 100 "°C"),
       (0, 40, .lit ("Status: " ++ temp_status 100))] := by
  refine ⟨rfl, ?_, ?_⟩ <;>
    · show Installer.draw_temperature _ _ = _
      unfold Installer.draw_temperature to_fahrenheit
      norm_num

/-- C10: on a normal render of the DateTime mode the embedded monitor
draws a staleness line at (0, 48) that reads "NTP: Synced" exactly when
`time.time() - last_ntp_sync < 7200` seconds, and "NTP: Old"
otherwise. -/
theorem ntp_staleness_line (d t z : String) (now last : ℚ) :
    ((0, 48, Txt.lit "NTP: Synced") ∈
        Installer.draw_datetime (.ok ()) d t z now last ↔
      now - last < 7200) ∧
    ((0, 48, Txt.lit "NTP: Old") ∈
        Installer.draw_datetime (.ok ()) d t z now last ↔
      ¬ now - last < 7200) := by
  unfold Installer.draw_datetime
  by_cases h : now - last < 7200 <;> simp [h]
